import Mathlib

/-!
Verification of the Samsung TV Plus gateway (`src/app.py`) against its
specification.  The program is shallowly embedded: Python strings become
`List Char`, Python `time()` instants become `Int` seconds, the two
class-level caches become explicit state records, and the outcome of each
`requests.get` call is passed in as an explicit parameter so that theorems
can quantify over the environment.
-/

/- ### Python string primitives

Python `str` values are modelled as lists of characters so that every
operation reduces inside the kernel.  Only the operations the program uses
are embedded: `lower`, `strip`, `split`, concatenation and comparison. -/

/-- A Python string: a list of characters. -/
abbrev PyStr := List Char

/-- Coerce a Lean string literal to the embedding. -/
def pyStr (s : String) : PyStr := s.data

/-- `str.lower` on one character (the program only lowercases ASCII region
codes, group names and channel names). -/
def pyLowerChar (c : Char) : Char :=
  if 65 ≤ c.toNat ∧ c.toNat ≤ 90 then Char.ofNat (c.toNat + 32) else c

/-- Python `str.lower`. -/
def pyLower (s : PyStr) : PyStr := s.map pyLowerChar

/-- Python `str.isspace` for a single character (the whitespace stripped by
`str.strip`). -/
def pySpace (c : Char) : Bool :=
  c.toNat == 32 || c.toNat == 9 || c.toNat == 10 || c.toNat == 13 ||
    c.toNat == 11 || c.toNat == 12

/-- Python `str.strip`: drop leading and trailing whitespace. -/
def pyStrip (s : PyStr) : PyStr :=
  ((s.dropWhile pySpace).reverse.dropWhile pySpace).reverse

/-- Code points of a string; Python compares strings lexicographically by
code point, which is the lexicographic order on `List ℕ`. -/
def codes (s : PyStr) : List Nat := s.map Char.toNat

/-- Python `str.split(sep)` for a one-character separator. -/
def pySplit (sep : Char) : PyStr → List PyStr
  | [] => [[]]
  | c :: rest =>
    match pySplit sep rest with
    | [] => [[]]
    | h :: t => if c == sep then [] :: h :: t else (c :: h) :: t

/- ### Constants of `app.py` (lines 12-24) -/

def REGION_ALL : PyStr := pyStr "all"

def PLAYLIST_PATH : PyStr := pyStr "playlist.m3u8"

def EPG_PATH : PyStr := pyStr "epg.xml"

def STATUS_PATH : PyStr := pyStr ""

def APP_URL : PyStr := pyStr "https://i.mjh.nz/SamsungTVPlus/.channels.json"

def EPG_URL : PyStr := pyStr "https://i.mjh.nz/SamsungTVPlus/all.xml.gz"

/-- line 23: `CHANNEL_CACHE_EXPIRY = 5 * 60`. -/
def CHANNEL_CACHE_EXPIRY : Int := 5 * 60

/-- line 24: `EPG_CACHE_EXPIRY = 60 * 60`. -/
def EPG_CACHE_EXPIRY : Int := 60 * 60

/-- `PLAYBACK_URL.format(id=key)` (lines 21 and 189). -/
def playbackUrl (key : PyStr) : PyStr :=
  pyStr "https://jmp2.uk/sam-" ++ key ++ pyStr ".m3u8"

/- ### Data model

A channel dict as the program reads it: `name`, `logo`, `group` are accessed
directly; `chno` and `license_url` through `.get`, with `none` modelling an
absent key (or a JSON `null` for `chno`). -/

structure Channel where
  name : PyStr
  logo : PyStr
  group : PyStr
  chno : Option Int
  license_url : Option PyStr
  deriving DecidableEq

/-- One value of the `regions` mapping: display name plus a `channels` dict,
modelled as an association list in dict insertion order. -/
structure RegionData where
  name : PyStr
  channels : List (PyStr × Channel)
  deriving DecidableEq

/-- The value stored in the channel cache: the `regions` mapping of the
upstream JSON document. -/
abbrev Catalog := List (PyStr × RegionData)

/- ### Cache state

`cached_data`/`cache_timestamp` (lines 30-31) and
`epg_cache_data`/`epg_cache_timestamp` (lines 32-33) are each written only
together, under their lock (lines 59-60 and 89-90), so each pair is modelled
as one optional pair. -/

structure ChannelCacheState where
  cache : Option (Catalog × Int)
  deriving DecidableEq

structure EpgCacheState where
  cache : Option (List Nat × Int)
  deriving DecidableEq

/-- The messages the program prints, one constructor per `print` call site in
the cache layer (identity matters, text does not). -/
inductive LogMsg
  | usingCachedChannelData
  | fetchingNewChannelData
  | channelCacheUpdated
  | invalidJsonMissingRegions
  | jsonDecodingFailed
  | errorFetchingChannelData
  | usingCachedEpgData
  | fetchingNewEpgData
  | epgCacheUpdated
  | errorFetchingEpgData
  deriving DecidableEq

/-- The environment's answer to one `requests.get(APP_URL)` call:
a `requests.RequestException` (including `raise_for_status`), a body that is
not JSON (`ValueError` from `response.json()`), or a decoded JSON document,
carrying `some r` exactly when the key `regions` is present with value `r`. -/
inductive ChannelFetchOutcome
  | transportError
  | invalidJson
  | jsonBody (regions : Option Catalog)
  deriving DecidableEq

/-- Result of one `get_cached_channel_data` call.  `invoked` records whether
`requests.get(APP_URL)` was executed (line 52). -/
structure ChannelCallResult where
  result : Option Catalog
  state : ChannelCacheState
  invoked : Bool
  log : List LogMsg
  deriving DecidableEq

/-- The fetch arm of `get_cached_channel_data` (lines 50-72). -/
def fetchChannel (s : ChannelCacheState) (current_time : Int)
    (outcome : ChannelFetchOutcome) : ChannelCallResult :=
  match outcome with
  | .transportError =>
      { result := none, state := s, invoked := true,
        log := [.fetchingNewChannelData, .errorFetchingChannelData] }
  | .invalidJson =>
      { result := none, state := s, invoked := true,
        log := [.fetchingNewChannelData, .jsonDecodingFailed] }
  | .jsonBody none =>
      { result := none, state := s, invoked := true,
        log := [.fetchingNewChannelData, .invalidJsonMissingRegions] }
  | .jsonBody (some r) =>
      { result := some r, state := { cache := some (r, current_time) },
        invoked := true,
        log := [.fetchingNewChannelData, .channelCacheUpdated] }

/-- `Handler.get_cached_channel_data` (lines 41-72).  The guard on line 46 is
`cls.cached_data and (current_time - cls.cache_timestamp) < CHANNEL_CACHE_EXPIRY`:
dict truthiness means the cached catalog must also be non-empty. -/
def get_cached_channel_data (s : ChannelCacheState) (current_time : Int)
    (outcome : ChannelFetchOutcome) : ChannelCallResult :=
  match s.cache with
  | some (d, ts) =>
      if !d.isEmpty && decide (current_time - ts < CHANNEL_CACHE_EXPIRY) then
        { result := some d, state := s, invoked := false,
          log := [.usingCachedChannelData] }
      else fetchChannel s current_time outcome
  | none => fetchChannel s current_time outcome

/-- A gzip blob, modelled by its decompression result: `none` when
`gzip.GzipFile(...).read()` raises. -/
structure GzPayload where
  gunzip : Option (List Nat)
  deriving DecidableEq

/-- The environment's answer to one `requests.get(EPG_URL, stream=True)`
call. -/
inductive EpgFetchOutcome
  | transportError
  | payload (content : GzPayload)
  deriving DecidableEq

/-- What `get_cached_epg_data` yields: a byte string, the `None` return of a
caught `requests.RequestException`, or a gzip error that escapes the method
(gzip failures are not `requests.RequestException`s, so line 94 does not
catch them). -/
inductive EpgResult
  | value (b : List Nat)
  | failure
  | gzipRaise
  deriving DecidableEq

structure EpgCallResult where
  result : EpgResult
  state : EpgCacheState
  invoked : Bool
  log : List LogMsg
  deriving DecidableEq

/-- The fetch arm of `get_cached_epg_data` (lines 83-96).  The cache is
assigned only by `cls.epg_cache_data = gz.read()` (line 89), so when
decompression raises, nothing was stored. -/
def fetchEpg (s : EpgCacheState) (current_time : Int)
    (outcome : EpgFetchOutcome) : EpgCallResult :=
  match outcome with
  | .transportError =>
      { result := .failure, state := s, invoked := true,
        log := [.fetchingNewEpgData, .errorFetchingEpgData] }
  | .payload content =>
      match content.gunzip with
      | none =>
          { result := .gzipRaise, state := s, invoked := true,
            log := [.fetchingNewEpgData] }
      | some b =>
          { result := .value b, state := { cache := some (b, current_time) },
            invoked := true,
            log := [.fetchingNewEpgData, .epgCacheUpdated] }

/-- `Handler.get_cached_epg_data` (lines 74-96).  Line 79 requires
`cls.epg_cache_data` to be truthy: a non-empty byte string. -/
def get_cached_epg_data (s : EpgCacheState) (current_time : Int)
    (outcome : EpgFetchOutcome) : EpgCallResult :=
  match s.cache with
  | some (b, ts) =>
      if !b.isEmpty && decide (current_time - ts < EPG_CACHE_EXPIRY) then
        { result := .value b, state := s, invoked := false,
          log := [.usingCachedEpgData] }
      else fetchEpg s current_time outcome
  | none => fetchEpg s current_time outcome

/- ### Call traces

`channel_cache_lock` (line 34) is held for the whole body of
`get_cached_channel_data`, so concurrent calls execute serially in lock
acquisition order: a set of concurrent calls is modelled as a list of
(arrival time, fetch outcome) pairs executed in that order.  The trace also
counts how many times `requests.get(APP_URL)` ran. -/

structure TraceCall where
  time : Int
  outcome : ChannelFetchOutcome
  deriving DecidableEq

def runChannelCalls (s : ChannelCacheState) :
    List TraceCall → List (Option Catalog) × ChannelCacheState × Nat
  | [] => ([], s, 0)
  | c :: rest =>
      let r := get_cached_channel_data s c.time c.outcome
      let t := runChannelCalls r.state rest
      (r.result :: t.1, t.2.1, (if r.invoked then 1 else 0) + t.2.2)

/- ### The arguments of the two upstream `requests.get` call sites

`requests.get` waits forever when its `timeout` keyword is not supplied;
`timeout := none` records exactly that. -/

structure RequestsGetArgs where
  url : PyStr
  stream : Bool
  timeout : Option (Int × Int)
  deriving DecidableEq

/-- Line 52: `requests.get(APP_URL)` — no `timeout` argument. -/
def channelFetchArgs : RequestsGetArgs :=
  { url := APP_URL, stream := false, timeout := none }

/-- Line 85: `requests.get(EPG_URL, stream=True)` — no `timeout` argument. -/
def epgFetchArgs : RequestsGetArgs :=
  { url := EPG_URL, stream := true, timeout := none }

/- ### Playlist request parameters

The fields hold the values as `_playlist` has resolved them from query
parameters and environment defaults (lines 159-169): `groups` is already
lowercased and emptied of blanks, `includeIds`/`excludeIds` are the split
`include`/`exclude` lists, `sort` defaults to `chno` when absent. -/

structure PlaylistParams where
  start_chno : Option Int
  sort : PyStr
  includeIds : List PyStr
  excludeIds : List PyStr
  groups : List PyStr
  deriving DecidableEq

/- ### Region resolution and channel merge (lines 159-161, 175-178) -/

/-- Line 161: keep the catalog regions whose lowercased code was requested,
or all of them when `all` was requested. -/
def resolveRegions (all_channels : Catalog) (requested : List PyStr) : List PyStr :=
  (all_channels.map Prod.fst).filter
    (fun r => requested.contains (pyLower r) || requested.contains REGION_ALL)

/-- Python `dict` assignment `d[k] = v`: update in place when the key exists,
else append (dicts preserve insertion order). -/
def dictInsert (d : List (PyStr × Channel)) (k : PyStr) (v : Channel) :
    List (PyStr × Channel) :=
  if d.any (fun kc => kc.1 == k) then
    d.map (fun kc => if kc.1 == k then (k, v) else kc)
  else d ++ [(k, v)]

/-- Python `dict.update` (line 178): a later region's channel overwrites an
earlier one sharing the same key. -/
def dictUpdate (d upd : List (PyStr × Channel)) : List (PyStr × Channel) :=
  upd.foldl (fun acc kv => dictInsert acc kv.1 kv.2) d

/-- Lines 175-178: merge the `channels` dicts of the resolved regions. -/
def mergeChannels (all_channels : Catalog) (resolved : List PyStr) :
    List (PyStr × Channel) :=
  resolved.foldl
    (fun acc r =>
      match all_channels.find? (fun rd => rd.1 == r) with
      | some rd => dictUpdate acc rd.2.channels
      | none => acc)
    []

/- ### Sorting (line 182)

`sorted(channels.keys(), key=...)` is Python's stable ascending sort by the
key function; insertion sort is also stable, so on every input both produce
the same list.  When `sort == "chno"` the key is `channels[x]['chno']`:
Python raises when a channel has no number, so theorems about this branch
assume every channel carries one and `chnoKey`'s default is never reached. -/

def chnoKey (c : Channel) : Int := c.chno.getD 0

/-- `channels[x]['name'].strip().lower()`, compared by code point as Python
compares strings. -/
def nameKey (c : Channel) : List Nat := codes (pyLower (pyStrip c.name))

def sortChannels (channels : List (PyStr × Channel)) (sort : PyStr) :
    List (PyStr × Channel) :=
  if sort == pyStr "chno" then
    List.insertionSort (fun a b => chnoKey a.2 ≤ chnoKey b.2) channels
  else
    List.insertionSort (fun a b => nameKey a.2 ≤ nameKey b.2) channels

/- ### Per-channel filters (lines 190-204) -/

/-- Line 190: `channel_id = f'samsung-{key}'`. -/
def channelIdOf (key : PyStr) : PyStr := pyStr "samsung-" ++ key

/-- Line 193: `if channel.get('license_url'):` — truthy means present and
non-empty. -/
def licenseSkip (c : Channel) : Bool :=
  match c.license_url with
  | some u => !u.isEmpty
  | none => false

/-- Line 197: include/exclude filters on the synthesized channel id. -/
def includeExcludeSkip (p : PlaylistParams) (cid : PyStr) : Bool :=
  (!p.includeIds.isEmpty && !p.includeIds.contains cid) ||
    (!p.excludeIds.isEmpty && p.excludeIds.contains cid)

/-- Line 202: group filter against the lowercased group title. -/
def groupSkip (p : PlaylistParams) (c : Channel) : Bool :=
  !p.groups.isEmpty && !p.groups.contains (pyLower c.group)

def skipChannel (p : PlaylistParams) (key : PyStr) (c : Channel) : Bool :=
  licenseSkip c || includeExcludeSkip p (channelIdOf key) || groupSkip p c

/- ### Emission (lines 182-220) -/

/-- One emitted playlist entry: the `#EXTINF` line's attributes plus the
playback URL line.  `chnoAttr = some n` means the line carries
`tvg-chno="n"`; `none` means the attribute is absent. -/
structure Entry where
  key : PyStr
  channel : Channel
  channelId : PyStr
  url : PyStr
  chnoAttr : Option Int
  deriving DecidableEq

/-- Lines 206-212: the `tvg-chno` attribute for one surviving channel and
the updated `start_chno` counter. -/
def chnoStep (start_chno : Option Int) (c : Channel) : Option Int × Option Int :=
  match start_chno with
  | some n => if n > 0 then (some n, some (n + 1)) else (none, some n)
  | none =>
      match c.chno with
      | some k => (some k, none)
      | none => (none, none)

/-- The `for key in sorted(...)` loop (lines 182-220), restricted to what it
emits: `continue`d channels produce nothing and do not advance the
`start_chno` counter. -/
def emitLoop (p : PlaylistParams) :
    List (PyStr × Channel) → Option Int → List Entry
  | [], _ => []
  | (key, c) :: rest, sc =>
      if skipChannel p key c then emitLoop p rest sc
      else
        let step := chnoStep sc c
        { key := key, channel := c, channelId := channelIdOf key,
          url := playbackUrl key, chnoAttr := step.1 } :: emitLoop p rest step.2

/-- The playlist body for one merged channel mapping: sort, filter, number. -/
def playlistEntries (channels : List (PyStr × Channel)) (p : PlaylistParams) :
    List Entry :=
  emitLoop p (sortChannels channels p.sort) p.start_chno

/- ### The client socket

`self.wfile` is modelled by a write-attempt counter and a disconnection
point: when `failFrom = some k`, the write attempts with index `≥ k` raise
`BrokenPipeError`.  Only body writes go through the sink; status lines and
headers are tracked separately. -/

structure Sink where
  attempts : Nat
  failFrom : Option Nat
  deriving DecidableEq

/-- One `self.wfile.write(...)`: the updated sink and whether the write
succeeded. -/
def Sink.write1 (s : Sink) : Sink × Bool :=
  match s.failFrom with
  | some k =>
      if s.attempts < k then ({ s with attempts := s.attempts + 1 }, true)
      else ({ s with attempts := s.attempts + 1 }, false)
  | none => ({ s with attempts := s.attempts + 1 }, true)

/-- Lines 215-220: per-entry writes; `except BrokenPipeError: break`. -/
def writeEntries (sink : Sink) : List Entry → Sink
  | [] => sink
  | _ :: rest =>
      let w := sink.write1
      if w.2 then writeEntries w.1 rest else w.1

/-- Lines 180-222: the header write and the entry loop, all inside
`try ... except BrokenPipeError` — a mid-stream disconnect never escapes. -/
def playlistWriteBody (sink : Sink) (entries : List Entry) : Sink :=
  let w := sink.write1
  if w.2 then writeEntries w.1 entries else w.1

/- ### The HTTP handler -/

structure ServerState where
  chan : ChannelCacheState
  epg : EpgCacheState
  deriving DecidableEq

/-- The bodies `_error` can write, one constructor per message (lines 155,
231, 251 and the `_error(e)` on line 136). -/
inductive ErrMsg
  | failedRetrieveData
  | failedRetrieveEpg
  | exceptionText
  deriving DecidableEq

/-- Everything one `do_GET` surfaces: every `send_response` status in order,
every error body attempted, the caches after the call, the sink after the
call, whether an exception escaped `do_GET`, and the cache-layer log. -/
structure GetResult where
  statuses : List Nat
  bodies : List ErrMsg
  state : ServerState
  sink : Sink
  escalated : Bool
  log : List LogMsg
  deriving DecidableEq

/-- An exception reaches `do_GET`'s `except Exception` (line 135): it calls
`self._error(e)`, which sends a 500, attempts to write the error body, and
re-raises (line 102), so the exception escapes `do_GET`. -/
def doGetError (statuses : List Nat) (bodies : List ErrMsg) (st : ServerState)
    (sink : Sink) (log : List LogMsg) : GetResult :=
  { statuses := statuses ++ [500], bodies := bodies ++ [.exceptionText],
    state := st, sink := (Sink.write1 sink).1, escalated := true, log := log }

/-- A route handler calls `self._error(message)` directly: a 500 and the
body are sent, then the bare `raise` on line 102 throws, which lands in
`do_GET`'s `except Exception` and runs `_error` a second time. -/
def errorCascade (message : ErrMsg) (st : ServerState) (sink : Sink)
    (log : List LogMsg) : GetResult :=
  doGetError [500] [message] st (Sink.write1 sink).1 log

/-- `Handler._playlist` (lines 151-226).  On a `None` catalog it calls
`_error` (line 155); otherwise it sends 200, resolves regions, merges,
sorts, filters and streams the entries. -/
def playlistRoute (st : ServerState) (now : Int)
    (chanOutcome : ChannelFetchOutcome) (regionsParam : List PyStr)
    (params : PlaylistParams) (sink : Sink) : GetResult :=
  let r := get_cached_channel_data st.chan now chanOutcome
  let st2 := { st with chan := r.state }
  match r.result with
  | none => errorCascade .failedRetrieveData st2 sink r.log
  | some cat =>
      let entries :=
        playlistEntries (mergeChannels cat (resolveRegions cat regionsParam))
          params
      { statuses := [200], bodies := [], state := st2,
        sink := playlistWriteBody sink entries, escalated := false,
        log := r.log }

/-- `Handler._epg` (lines 228-238).  The body write on line 238 is guarded
by no handler: a `BrokenPipeError` there escapes `_epg` into `do_GET`'s
`except Exception`, as does a gzip error escaping `get_cached_epg_data`. -/
def epgRoute (st : ServerState) (now : Int) (epgOutcome : EpgFetchOutcome)
    (sink : Sink) : GetResult :=
  let r := get_cached_epg_data st.epg now epgOutcome
  let st2 := { st with epg := r.state }
  match r.result with
  | .failure => errorCascade .failedRetrieveEpg st2 sink r.log
  | .gzipRaise => doGetError [] [] st2 sink r.log
  | .value _ =>
      let w := sink.write1
      if w.2 then
        { statuses := [200], bodies := [], state := st2, sink := w.1,
          escalated := false, log := r.log }
      else doGetError [200] [] st2 w.1 r.log

/-- `Handler._status` (lines 248-284), with the HTML output modelled as one
body write. -/
def statusRoute (st : ServerState) (now : Int)
    (chanOutcome : ChannelFetchOutcome) (sink : Sink) : GetResult :=
  let r := get_cached_channel_data st.chan now chanOutcome
  let st2 := { st with chan := r.state }
  match r.result with
  | none => errorCascade .failedRetrieveData st2 sink r.log
  | some _ =>
      let w := sink.write1
      if w.2 then
        { statuses := [200], bodies := [], state := st2, sink := w.1,
          escalated := false, log := r.log }
      else doGetError [200] [] st2 w.1 r.log

/-- `Handler._serve_favicon` (lines 139-149), reached before `do_GET`'s try
block: a failing write escapes without running `_error`. -/
def faviconRoute (st : ServerState) (faviconExists : Bool) (sink : Sink) :
    GetResult :=
  if faviconExists then
    let w := sink.write1
    { statuses := [200], bodies := [], state := st, sink := w.1,
      escalated := !w.2, log := [] }
  else
    { statuses := [404], bodies := [], state := st, sink := sink,
      escalated := false, log := [] }

/-- `Handler.do_GET` (lines 104-137): the favicon short-circuit, then
dispatch on `parsed.path.split('/')[1]` against the `routes` dict
(lines 117-121); anything else is a 404 that touches nothing. -/
def do_GET (path : PyStr) (st : ServerState) (now : Int)
    (chanOutcome : ChannelFetchOutcome) (epgOutcome : EpgFetchOutcome)
    (regionsParam : List PyStr) (params : PlaylistParams)
    (faviconExists : Bool) (sink : Sink) : GetResult :=
  if path == pyStr "/favicon.ico" then faviconRoute st faviconExists sink
  else
    let parsedPath := (pySplit '?' path).getD 0 []
    let func := (pySplit '/' parsedPath).getD 1 []
    if func == PLAYLIST_PATH then
      playlistRoute st now chanOutcome regionsParam params sink
    else if func == EPG_PATH then epgRoute st now epgOutcome sink
    else if func == STATUS_PATH then statusRoute st now chanOutcome sink
    else
      { statuses := [404], bodies := [], state := st, sink := sink,
        escalated := false, log := [] }

/- ### Concrete example data used by witnesses and counterexamples -/

def exChannel : Channel :=
  { name := pyStr "One", logo := pyStr "logo1", group := pyStr "News",
    chno := some 1, license_url := none }

def exCatalog : Catalog :=
  [(pyStr "us", { name := pyStr "USA", channels := [(pyStr "k1", exChannel)] })]

def exServerState : ServerState :=
  { chan := { cache := some (exCatalog, 0) }, epg := { cache := some ([60], 0) } }

def exParams : PlaylistParams :=
  { start_chno := none, sort := pyStr "chno", includeIds := [],
    excludeIds := [], groups := [] }

/-- Test-data channel builder: a channel with the given name, number and
license value, empty logo and group. -/
def mkChan (nm : String) (n : Int) (lic : Option PyStr) : Channel :=
  { name := pyStr nm, logo := [], group := [], chno := some n,
    license_url := lic }

/-- Channels with numbers [3, 1, 2] (in that association order). -/
def exChnoChannels : List (PyStr × Channel) :=
  [(pyStr "a", mkChan "Alpha TV" 3 none), (pyStr "b", mkChan "Beta TV" 1 none),
   (pyStr "c", mkChan "Gamma TV" 2 none)]

/-- Channels named ["Zeta", "alpha"] (in that association order). -/
def exNameChannels : List (PyStr × Channel) :=
  [(pyStr "z", mkChan "Zeta" 1 none), (pyStr "a", mkChan "alpha" 2 none)]

def exNameParams : PlaylistParams :=
  { start_chno := none, sort := pyStr "name", includeIds := [],
    excludeIds := [], groups := [] }

/-- Four channels in number order; the second requires a license, so three
survive the filters. -/
def exSeqChannels : List (PyStr × Channel) :=
  [(pyStr "a", mkChan "A" 1 none), (pyStr "b", mkChan "B" 2 (some (pyStr "drm"))),
   (pyStr "c", mkChan "C" 3 none), (pyStr "d", mkChan "D" 4 none)]

def exStart5Params : PlaylistParams :=
  { start_chno := some 5, sort := pyStr "chno", includeIds := [],
    excludeIds := [], groups := [] }

def exStart0Params : PlaylistParams :=
  { start_chno := some 0, sort := pyStr "chno", includeIds := [],
    excludeIds := [], groups := [] }

/- ### Helper lemmas -/

theorem fetchChannel_invoked (s : ChannelCacheState) (t : Int)
    (o : ChannelFetchOutcome) : (fetchChannel s t o).invoked = true := by
  rcases o with _ | _ | ⟨_ | _⟩ <;> rfl

theorem fetchEpg_invoked (s : EpgCacheState) (t : Int) (o : EpgFetchOutcome) :
    (fetchEpg s t o).invoked = true := by
  rcases o with _ | ⟨⟨_ | _⟩⟩ <;> rfl

theorem isEmpty_false_of_ne_nil {α : Type} {l : List α} (h : l ≠ []) :
    l.isEmpty = false := by
  cases l with
  | nil => exact absurd rfl h
  | cons a l => rfl

/-- Every call made while a non-empty catalog entry of age `< TTL` is cached
is answered from the cache. -/
theorem runChannelCalls_fresh (d : Catalog) (t0 : Int) (hd : d ≠ []) :
    ∀ rest : List TraceCall,
      (∀ c ∈ rest, c.time - t0 < CHANNEL_CACHE_EXPIRY) →
      runChannelCalls ⟨some (d, t0)⟩ rest =
        (rest.map (fun _ => some d), ⟨some (d, t0)⟩, 0) := by
  intro rest
  induction rest with
  | nil => intro _; rfl
  | cons c rest ih =>
      intro h
      have hc := h c (List.mem_cons_self c rest)
      have hrest := ih (fun x hx => h x (List.mem_cons_of_mem _ hx))
      simp [runChannelCalls, get_cached_channel_data,
        isEmpty_false_of_ne_nil hd, decide_eq_true hc, hrest]

/- ### Claim theorems -/

/-- C1 counterexample: the channel cache holds an entry (the empty catalog,
stored at time 0); at time 10 its age is strictly below the 300-second TTL,
yet the lookup invokes the upstream fetch and does not return the cached
value.  The guard on line 46 also requires dict truthiness. -/
theorem cache_fresh_hit_cex :
    (get_cached_channel_data ⟨some ([], 0)⟩ 10 .transportError).invoked = true ∧
    (get_cached_channel_data ⟨some ([], 0)⟩ 10 .transportError).result ≠
      some [] := by decide

/-- C1 (amended): for both keys, a lookup made while a cached entry with a
NON-EMPTY payload exists whose age is strictly less than the TTL (300 s for
the catalog, 3600 s for the EPG) returns the cached value, does not invoke
the upstream fetch, and leaves the state unchanged. -/
theorem cache_fresh_nonempty_hit (d : Catalog) (ts : Int) (b : List Nat)
    (ts2 t : Int) (o : ChannelFetchOutcome) (o2 : EpgFetchOutcome)
    (hd : d ≠ []) (ht : t - ts < CHANNEL_CACHE_EXPIRY)
    (hb : b ≠ []) (ht2 : t - ts2 < EPG_CACHE_EXPIRY) :
    get_cached_channel_data ⟨some (d, ts)⟩ t o =
      { result := some d, state := ⟨some (d, ts)⟩, invoked := false,
        log := [.usingCachedChannelData] } ∧
    get_cached_epg_data ⟨some (b, ts2)⟩ t o2 =
      { result := .value b, state := ⟨some (b, ts2)⟩, invoked := false,
        log := [.usingCachedEpgData] } := by
  constructor
  · simp [get_cached_channel_data, isEmpty_false_of_ne_nil hd,
      decide_eq_true ht]
  · simp [get_cached_epg_data, isEmpty_false_of_ne_nil hb,
      decide_eq_true ht2]

theorem cache_fresh_nonempty_hit_witness :
    get_cached_channel_data ⟨some (exCatalog, 0)⟩ 10 .transportError =
      { result := some exCatalog, state := ⟨some (exCatalog, 0)⟩,
        invoked := false, log := [.usingCachedChannelData] } ∧
    get_cached_epg_data ⟨some ([60], 0)⟩ 10 .transportError =
      { result := .value [60], state := ⟨some ([60], 0)⟩, invoked := false,
        log := [.usingCachedEpgData] } :=
  cache_fresh_nonempty_hit exCatalog 0 [60] 0 10 .transportError
    .transportError (by decide) (by decide) (by decide) (by decide)

/-- C2 counterexample: two callers arrive at time 0 with no entry cached;
the lock serializes them.  The first caller's fetch fails; the second then
performs a second upstream fetch, which succeeds.  Two fetch invocations,
and the callers observe different results — not single-flight as claimed. -/
theorem single_flight_cex :
    (runChannelCalls ⟨none⟩
        [⟨0, .transportError⟩, ⟨0, .jsonBody (some exCatalog)⟩]).2.2 = 2 ∧
    (runChannelCalls ⟨none⟩
        [⟨0, .transportError⟩, ⟨0, .jsonBody (some exCatalog)⟩]).1 =
      [none, some exCatalog] := by decide

/-- C2 (amended): the lock serializes concurrent calls, so no fetch starts
while another is in flight; when the winner's fetch succeeds with a
non-empty catalog, every remaining serialized call within the TTL window is
answered from the cache with the winner's value and exactly one upstream
fetch happens in total.  After a FAILED fetch, however, the next caller
performs a new fetch, so a mixed trace can fetch more than once. -/
theorem single_flight_amended_thm (t0 : Int) (d : Catalog)
    (rest : List TraceCall) (hd : d ≠ [])
    (hrest : ∀ c ∈ rest, c.time - t0 < CHANNEL_CACHE_EXPIRY) :
    runChannelCalls ⟨none⟩ (⟨t0, .jsonBody (some d)⟩ :: rest) =
      (some d :: rest.map (fun _ => some d), ⟨some (d, t0)⟩, 1) := by
  simp [runChannelCalls, get_cached_channel_data, fetchChannel,
    runChannelCalls_fresh d t0 hd rest hrest]

theorem single_flight_amended_witness :
    runChannelCalls ⟨none⟩
        [⟨0, .jsonBody (some exCatalog)⟩, ⟨5, .transportError⟩,
          ⟨250, .invalidJson⟩] =
      ([some exCatalog, some exCatalog, some exCatalog],
        ⟨some (exCatalog, 0)⟩, 1) :=
  single_flight_amended_thm 0 exCatalog
    [⟨5, .transportError⟩, ⟨250, .invalidJson⟩] (by decide) (by decide)

/-- C3 counterexample: with both caches freshly populated, a GET of
`/clear_cache` returns 404 (not 200), leaves both caches unchanged, and a
playlist lookup made immediately afterwards is still served from the cache
without any upstream fetch.  `do_GET`'s route table (lines 117-121) has no
`/clear_cache` entry. -/
theorem clear_cache_cex :
    (do_GET (pyStr "/clear_cache") exServerState 10 .transportError
        .transportError [pyStr "all"] exParams true ⟨0, none⟩).statuses =
      [404] ∧
    (do_GET (pyStr "/clear_cache") exServerState 10 .transportError
        .transportError [pyStr "all"] exParams true ⟨0, none⟩).state =
      exServerState ∧
    (get_cached_channel_data
        (do_GET (pyStr "/clear_cache") exServerState 10 .transportError
          .transportError [pyStr "all"] exParams true ⟨0, none⟩).state.chan
        20 .transportError).invoked = false := by decide

/-- C3 (amended): the program has no `/clear_cache` route: for every server
state and request environment, a GET of `/clear_cache` produces a 404 with
no body, escalates nothing, and leaves every cache entry untouched, so
entries expire only through their TTL. -/
theorem clear_cache_amended_thm (st : ServerState) (now : Int)
    (co : ChannelFetchOutcome) (eo : EpgFetchOutcome) (rp : List PyStr)
    (p : PlaylistParams) (fe : Bool) (sink : Sink) :
    do_GET (pyStr "/clear_cache") st now co eo rp p fe sink =
      { statuses := [404], bodies := [], state := st, sink := sink,
        escalated := false, log := [] } := rfl

/-- C4: when the upstream fetch fails — transport/HTTP error, non-JSON body,
JSON missing the `regions` key, or a malformed gzip blob — the cache state
(entry and timestamp) is left exactly as it was, and whenever the fetch was
actually invoked the call reports failure (a `None` result for the catalog;
`None` or the escaping gzip error for the EPG). -/
theorem failed_fetch_preserves_cache :
    (∀ (s : ChannelCacheState) (t : Int) (o : ChannelFetchOutcome),
        o = .transportError ∨ o = .invalidJson ∨ o = .jsonBody none →
        (get_cached_channel_data s t o).state = s ∧
        ((get_cached_channel_data s t o).invoked = true →
          (get_cached_channel_data s t o).result = none)) ∧
    (∀ (s : EpgCacheState) (t : Int) (o : EpgFetchOutcome),
        o = .transportError ∨ (∃ c, o = .payload c ∧ c.gunzip = none) →
        (get_cached_epg_data s t o).state = s ∧
        ((get_cached_epg_data s t o).invoked = true →
          (get_cached_epg_data s t o).result = .failure ∨
          (get_cached_epg_data s t o).result = .gzipRaise)) := by
  constructor
  · intro s t o ho
    have hf : (fetchChannel s t o).state = s ∧
        (fetchChannel s t o).result = none := by
      rcases ho with rfl | rfl | rfl <;> exact ⟨rfl, rfl⟩
    rcases s with ⟨_ | ⟨d, ts⟩⟩
    · exact ⟨hf.1, fun _ => hf.2⟩
    · by_cases hfresh :
        (!d.isEmpty && decide (t - ts < CHANNEL_CACHE_EXPIRY)) = true
      · simp [get_cached_channel_data, hfresh]
      · simp [get_cached_channel_data, hfresh, hf.1, hf.2]
  · intro s t o ho
    have hf : (fetchEpg s t o).state = s ∧
        ((fetchEpg s t o).result = .failure ∨
          (fetchEpg s t o).result = .gzipRaise) := by
      rcases ho with rfl | ⟨c, rfl, hc⟩
      · exact ⟨rfl, Or.inl rfl⟩
      · constructor
        · simp [fetchEpg, hc]
        · right; simp [fetchEpg, hc]
    rcases s with ⟨_ | ⟨b, ts⟩⟩
    · exact ⟨hf.1, fun _ => hf.2⟩
    · by_cases hfresh :
        (!b.isEmpty && decide (t - ts < EPG_CACHE_EXPIRY)) = true
      · simp [get_cached_epg_data, hfresh]
      · simp [get_cached_epg_data, hfresh, hf.1]
        exact fun _ => hf.2

theorem failed_fetch_preserves_cache_witness :
    ((get_cached_channel_data ⟨some (exCatalog, 0)⟩ 1000
        .transportError).state = ⟨some (exCatalog, 0)⟩ ∧
      ((get_cached_channel_data ⟨some (exCatalog, 0)⟩ 1000
          .transportError).invoked = true →
        (get_cached_channel_data ⟨some (exCatalog, 0)⟩ 1000
          .transportError).result = none)) ∧
    ((get_cached_epg_data ⟨some ([60], 0)⟩ 9000
        (.payload ⟨none⟩)).state = ⟨some ([60], 0)⟩ ∧
      ((get_cached_epg_data ⟨some ([60], 0)⟩ 9000
          (.payload ⟨none⟩)).invoked = true →
        (get_cached_epg_data ⟨some ([60], 0)⟩ 9000
          (.payload ⟨none⟩)).result = .failure ∨
        (get_cached_epg_data ⟨some ([60], 0)⟩ 9000
          (.payload ⟨none⟩)).result = .gzipRaise)) :=
  ⟨failed_fetch_preserves_cache.1 ⟨some (exCatalog, 0)⟩ 1000 .transportError
      (Or.inl rfl),
    failed_fetch_preserves_cache.2 ⟨some ([60], 0)⟩ 9000 (.payload ⟨none⟩)
      (Or.inr ⟨⟨none⟩, rfl, rfl⟩)⟩

/-- C5 counterexample: the catalog fetch on line 52 passes no `timeout`
argument to `requests.get`, so its connect/read timeouts are not finite —
the library waits indefinitely. -/
theorem fetch_timeout_cex : channelFetchArgs.timeout = none := rfl

/-- C5 (amended): neither upstream fetch sets a timeout: both
`requests.get` call sites (lines 52 and 85) are issued with `timeout`
absent, so a hung upstream server can block a request indefinitely. -/
theorem fetch_timeout_amended_thm :
    channelFetchArgs =
      { url := APP_URL, stream := false, timeout := none } ∧
    epgFetchArgs = { url := EPG_URL, stream := true, timeout := none } :=
  ⟨rfl, rfl⟩

/-- C10: an empty cached payload is treated as cache-absent: once the cache
holds an empty catalog mapping (or an empty EPG byte string), every
subsequent lookup invokes the upstream fetch, whatever the entry's age —
in particular even strictly inside the TTL window. -/
theorem empty_payload_treated_absent (ts t : Int) (o : ChannelFetchOutcome)
    (ts2 t2 : Int) (o2 : EpgFetchOutcome) :
    (get_cached_channel_data ⟨some ([], ts)⟩ t o).invoked = true ∧
    (get_cached_epg_data ⟨some ([], ts2)⟩ t2 o2).invoked = true :=
  ⟨fetchChannel_invoked _ _ _, fetchEpg_invoked _ _ _⟩

/-- C6 counterexample: starting from an empty cache, a transport error and a
decoded-JSON body lacking the `regions` key produce identical results at
every caller-visible point: the same `None` from the fetch layer and the
same 500 response with the same body from `_playlist` (line 155).  The
claimed caller-distinguishable error kinds do not exist. -/
theorem malformed_vs_transport_cex :
    (get_cached_channel_data ⟨none⟩ 0 .transportError).result =
      (get_cached_channel_data ⟨none⟩ 0 (.jsonBody none)).result ∧
    (playlistRoute ⟨⟨none⟩, ⟨none⟩⟩ 0 .transportError [] exParams
        ⟨0, none⟩).statuses =
      (playlistRoute ⟨⟨none⟩, ⟨none⟩⟩ 0 (.jsonBody none) [] exParams
        ⟨0, none⟩).statuses ∧
    (playlistRoute ⟨⟨none⟩, ⟨none⟩⟩ 0 .transportError [] exParams
        ⟨0, none⟩).bodies =
      (playlistRoute ⟨⟨none⟩, ⟨none⟩⟩ 0 (.jsonBody none) [] exParams
        ⟨0, none⟩).bodies ∧
    (playlistRoute ⟨⟨none⟩, ⟨none⟩⟩ 0 .transportError [] exParams
        ⟨0, none⟩).escalated =
      (playlistRoute ⟨⟨none⟩, ⟨none⟩⟩ 0 (.jsonBody none) [] exParams
        ⟨0, none⟩).escalated := by decide

/-- C6 (amended): a catalog response that decodes as JSON but lacks the
`regions` key is NOT distinguishable by the caller from a transport or
HTTP-status error: both yield `None` from the fetch layer and the identical
500 response (statuses, bodies, escalation, resulting state).  The two
cases differ only in the server-side log, where distinct messages are
printed. -/
theorem malformed_vs_transport_amended_thm (st : ServerState) (now : Int)
    (rp : List PyStr) (p : PlaylistParams) (sink : Sink)
    (h : st.chan.cache = none) :
    (playlistRoute st now .transportError rp p sink).statuses =
      (playlistRoute st now (.jsonBody none) rp p sink).statuses ∧
    (playlistRoute st now .transportError rp p sink).bodies =
      (playlistRoute st now (.jsonBody none) rp p sink).bodies ∧
    (playlistRoute st now .transportError rp p sink).escalated =
      (playlistRoute st now (.jsonBody none) rp p sink).escalated ∧
    (playlistRoute st now .transportError rp p sink).state =
      (playlistRoute st now (.jsonBody none) rp p sink).state ∧
    (playlistRoute st now .transportError rp p sink).log ≠
      (playlistRoute st now (.jsonBody none) rp p sink).log := by
  simp [playlistRoute, get_cached_channel_data, h, fetchChannel,
    errorCascade, doGetError]

theorem malformed_vs_transport_amended_witness :
    (playlistRoute ⟨⟨none⟩, ⟨none⟩⟩ 7 .transportError [] exParams
        ⟨0, none⟩).statuses =
      (playlistRoute ⟨⟨none⟩, ⟨none⟩⟩ 7 (.jsonBody none) [] exParams
        ⟨0, none⟩).statuses ∧
    (playlistRoute ⟨⟨none⟩, ⟨none⟩⟩ 7 .transportError [] exParams
        ⟨0, none⟩).bodies =
      (playlistRoute ⟨⟨none⟩, ⟨none⟩⟩ 7 (.jsonBody none) [] exParams
        ⟨0, none⟩).bodies ∧
    (playlistRoute ⟨⟨none⟩, ⟨none⟩⟩ 7 .transportError [] exParams
        ⟨0, none⟩).escalated =
      (playlistRoute ⟨⟨none⟩, ⟨none⟩⟩ 7 (.jsonBody none) [] exParams
        ⟨0, none⟩).escalated ∧
    (playlistRoute ⟨⟨none⟩, ⟨none⟩⟩ 7 .transportError [] exParams
        ⟨0, none⟩).state =
      (playlistRoute ⟨⟨none⟩, ⟨none⟩⟩ 7 (.jsonBody none) [] exParams
        ⟨0, none⟩).state ∧
    (playlistRoute ⟨⟨none⟩, ⟨none⟩⟩ 7 .transportError [] exParams
        ⟨0, none⟩).log ≠
      (playlistRoute ⟨⟨none⟩, ⟨none⟩⟩ 7 (.jsonBody none) [] exParams
        ⟨0, none⟩).log :=
  malformed_vs_transport_amended_thm ⟨⟨none⟩, ⟨none⟩⟩ 7 [] exParams
    ⟨0, none⟩ rfl

/- ### Helpers for the write-sink claims -/

theorem write1_fst_attempts (s : Sink) : s.write1.1.attempts = s.attempts + 1 := by
  unfold Sink.write1
  rcases s with ⟨a, _ | k⟩
  · rfl
  · by_cases h : a < k <;> simp [h]

theorem writeEntries_attempts_le (k : Nat) :
    ∀ (entries : List Entry) (s : Sink), s.failFrom = some k →
      s.attempts ≤ k → (writeEntries s entries).attempts ≤ k + 1 := by
  intro entries
  induction entries with
  | nil => intro s hf ha; exact Nat.le_succ_of_le ha
  | cons e rest ih =>
      intro s hf ha
      by_cases h : s.attempts < k
      · have hw : writeEntries s (e :: rest) =
            writeEntries ⟨s.attempts + 1, s.failFrom⟩ rest := by
          simp [writeEntries, Sink.write1, hf, h]
        rw [hw]
        exact ih ⟨s.attempts + 1, s.failFrom⟩ hf
          (by show s.attempts + 1 ≤ k; omega)
      · have hw : writeEntries s (e :: rest) =
            (⟨s.attempts + 1, s.failFrom⟩ : Sink) := by
          simp [writeEntries, Sink.write1, hf, h]
        rw [hw]
        show s.attempts + 1 ≤ k + 1
        omega

theorem playlistWriteBody_attempts_le (k : Nat) (s : Sink)
    (entries : List Entry) (hf : s.failFrom = some k) (ha : s.attempts ≤ k) :
    (playlistWriteBody s entries).attempts ≤ k + 1 := by
  by_cases h : s.attempts < k
  · have hw : playlistWriteBody s entries =
        writeEntries ⟨s.attempts + 1, s.failFrom⟩ entries := by
      simp [playlistWriteBody, Sink.write1, hf, h]
    rw [hw]
    exact writeEntries_attempts_le k entries _ hf
      (by show s.attempts + 1 ≤ k; omega)
  · have hw : playlistWriteBody s entries =
        (⟨s.attempts + 1, s.failFrom⟩ : Sink) := by
      simp [playlistWriteBody, Sink.write1, hf, h]
    rw [hw]
    show s.attempts + 1 ≤ k + 1
    omega

/-- C7 counterexample: the EPG cache is fresh and non-empty, but the client
has already disconnected (every write fails).  The claim says every streamed
response swallows the write failure at the per-request boundary; instead the
EPG passthrough's failed body write (line 238, unguarded) propagates into
`do_GET`, which attempts ANOTHER write (the `_error` body) and lets the
exception escape. -/
theorem broken_pipe_cex :
    (do_GET (pyStr "/epg.xml") ⟨⟨none⟩, ⟨some ([60], 0)⟩⟩ 10 .transportError
        .transportError [] exParams true ⟨0, some 0⟩).escalated = true ∧
    (do_GET (pyStr "/epg.xml") ⟨⟨none⟩, ⟨some ([60], 0)⟩⟩ 10 .transportError
        .transportError [] exParams true ⟨0, some 0⟩).sink.attempts = 2 := by
  decide

/-- C7 (amended): the two streamed responses differ.  The playlist generator
(lines 180-222) wraps every body write in `except BrokenPipeError`: when the
client disconnects after `k` successful chunks it stops after at most one
failing write attempt and returns cleanly, escalating nothing.  The EPG
passthrough does not guard its body write: a disconnected client makes the
handler escalate — `do_GET`'s handler runs `_error`, attempting one further
write, and the exception escapes. -/
theorem broken_pipe_amended_thm :
    (∀ (st : ServerState) (now : Int) (co : ChannelFetchOutcome)
        (rp : List PyStr) (p : PlaylistParams) (a k : Nat),
        ((get_cached_channel_data st.chan now co).result).isSome = true →
        a ≤ k →
        (playlistRoute st now co rp p ⟨a, some k⟩).escalated = false ∧
        (playlistRoute st now co rp p ⟨a, some k⟩).sink.attempts ≤ k + 1) ∧
    (∀ (st : ServerState) (now : Int) (eo : EpgFetchOutcome) (b : List Nat)
        (ts : Int) (a k : Nat),
        st.epg.cache = some (b, ts) → b ≠ [] →
        now - ts < EPG_CACHE_EXPIRY → ¬ a < k →
        (epgRoute st now eo ⟨a, some k⟩).escalated = true ∧
        (epgRoute st now eo ⟨a, some k⟩).sink.attempts = a + 2) := by
  constructor
  · intro st now co rp p a k hsome ha
    obtain ⟨cat, hcat⟩ := Option.isSome_iff_exists.mp hsome
    refine ⟨by simp [playlistRoute, hcat], ?_⟩
    simp only [playlistRoute, hcat]
    exact playlistWriteBody_attempts_le k ⟨a, some k⟩ _ rfl ha
  · intro st now eo b ts a k hcache hb hfresh hak
    have hval : get_cached_epg_data st.epg now eo =
        { result := .value b, state := st.epg, invoked := false,
          log := [.usingCachedEpgData] } := by
      simp [get_cached_epg_data, hcache, isEmpty_false_of_ne_nil hb,
        decide_eq_true hfresh]
    constructor
    · simp [epgRoute, hval, Sink.write1, hak, doGetError]
    · simp [epgRoute, hval, Sink.write1, hak, doGetError]
      split <;> rfl

theorem broken_pipe_amended_witness :
    ((playlistRoute exServerState 10 .transportError [] exParams
          ⟨0, some 0⟩).escalated = false ∧
      (playlistRoute exServerState 10 .transportError [] exParams
          ⟨0, some 0⟩).sink.attempts ≤ 0 + 1) ∧
    ((epgRoute ⟨⟨none⟩, ⟨some ([60], 0)⟩⟩ 10 .transportError
          ⟨0, some 0⟩).escalated = true ∧
      (epgRoute ⟨⟨none⟩, ⟨some ([60], 0)⟩⟩ 10 .transportError
          ⟨0, some 0⟩).sink.attempts = 0 + 2) :=
  ⟨broken_pipe_amended_thm.1 exServerState 10 .transportError [] exParams
      0 0 (by decide) (by decide),
    broken_pipe_amended_thm.2 ⟨⟨none⟩, ⟨some ([60], 0)⟩⟩ 10 .transportError
      [60] 0 0 0 rfl (by decide) (by decide) (by decide)⟩

/- ### Helpers for the sorting and numbering claims -/

theorem emitLoop_map_sublist (p : PlaylistParams) :
    ∀ (l : List (PyStr × Channel)) (sc : Option Int),
      ((emitLoop p l sc).map (fun e => (e.key, e.channel))).Sublist l := by
  intro l
  induction l with
  | nil => intro sc; simp [emitLoop]
  | cons kc rest ih =>
      intro sc
      obtain ⟨key, c⟩ := kc
      by_cases h : skipChannel p key c = true
      · simp only [emitLoop, h, if_true]
        exact (ih sc).cons _
      · simp only [emitLoop, h, if_false, Bool.false_eq_true, List.map_cons]
        exact List.Sublist.cons₂ _ (ih _)

theorem sortChannels_perm (channels : List (PyStr × Channel)) (s : PyStr) :
    (sortChannels channels s).Perm channels := by
  unfold sortChannels
  split <;> exact List.perm_insertionSort _ _

theorem sortChannels_chno_sorted (channels : List (PyStr × Channel)) :
    (sortChannels channels (pyStr "chno")).Pairwise
      (fun a b => chnoKey a.2 ≤ chnoKey b.2) := by
  letI : IsTotal (PyStr × Channel) (fun a b => chnoKey a.2 ≤ chnoKey b.2) :=
    ⟨fun a b => le_total _ _⟩
  letI : IsTrans (PyStr × Channel) (fun a b => chnoKey a.2 ≤ chnoKey b.2) :=
    ⟨fun _ _ _ => le_trans⟩
  have hif : (pyStr "chno" == pyStr "chno") = true := by decide
  simp only [sortChannels, hif, if_true]
  exact List.sorted_insertionSort _ channels

theorem sortChannels_name_sorted (channels : List (PyStr × Channel))
    (s : PyStr) (hs : s ≠ pyStr "chno") :
    (sortChannels channels s).Pairwise
      (fun a b => nameKey a.2 ≤ nameKey b.2) := by
  letI : IsTotal (PyStr × Channel) (fun a b => nameKey a.2 ≤ nameKey b.2) :=
    ⟨fun a b => le_total _ _⟩
  letI : IsTrans (PyStr × Channel) (fun a b => nameKey a.2 ≤ nameKey b.2) :=
    ⟨fun _ _ _ => le_trans⟩
  have hif : (s == pyStr "chno") = false := beq_eq_false_iff_ne.mpr hs
  simp only [sortChannels, hif, Bool.false_eq_true, if_false]
  exact List.sorted_insertionSort _ channels

theorem playlistEntries_mem_channels (channels : List (PyStr × Channel))
    (p : PlaylistParams) {e : Entry} (he : e ∈ playlistEntries channels p) :
    (e.key, e.channel) ∈ channels := by
  have hsub := emitLoop_map_sublist p (sortChannels channels p.sort)
    p.start_chno
  have hmem : (e.key, e.channel) ∈ sortChannels channels p.sort :=
    hsub.subset (List.mem_map_of_mem _ he)
  exact (sortChannels_perm channels p.sort).subset hmem

/-- C8: emitted playlist entries are ordered ascending — by the channel's
numeric field when `sort = "chno"` (assuming every merged channel carries a
number: with one missing, the Python key function raises), and otherwise by
the display name stripped of surrounding whitespace and lowercased, compared
by code point. -/
theorem playlist_sort_correct (channels : List (PyStr × Channel))
    (p : PlaylistParams)
    (hkeys : p.sort = pyStr "chno" →
      ∀ kc ∈ channels, (Prod.snd kc).chno.isSome = true) :
    (p.sort = pyStr "chno" →
      (playlistEntries channels p).Pairwise (fun e₁ e₂ => ∃ a b : Int,
        e₁.channel.chno = some a ∧ e₂.channel.chno = some b ∧ a ≤ b)) ∧
    (p.sort ≠ pyStr "chno" →
      (playlistEntries channels p).Pairwise
        (fun e₁ e₂ => nameKey e₁.channel ≤ nameKey e₂.channel)) := by
  constructor
  · intro hs
    have hsorted := sortChannels_chno_sorted channels
    rw [← hs] at hsorted
    have hsub := emitLoop_map_sublist p (sortChannels channels p.sort)
      p.start_chno
    have hp := List.Pairwise.sublist hsub hsorted
    rw [List.pairwise_map] at hp
    refine List.Pairwise.imp_of_mem ?_ hp
    intro e₁ e₂ h1 h2 hle
    have k1 := hkeys hs _ (playlistEntries_mem_channels channels p h1)
    have k2 := hkeys hs _ (playlistEntries_mem_channels channels p h2)
    obtain ⟨a, ha⟩ := Option.isSome_iff_exists.mp k1
    obtain ⟨b, hb⟩ := Option.isSome_iff_exists.mp k2
    have ha' : e₁.channel.chno = some a := ha
    have hb' : e₂.channel.chno = some b := hb
    refine ⟨a, b, ha', hb', ?_⟩
    have hkey : chnoKey e₁.channel ≤ chnoKey e₂.channel := hle
    simpa [chnoKey, ha', hb'] using hkey
  · intro hs
    have hsorted := sortChannels_name_sorted channels p.sort hs
    have hsub := emitLoop_map_sublist p (sortChannels channels p.sort)
      p.start_chno
    have hp := List.Pairwise.sublist hsub hsorted
    rw [List.pairwise_map] at hp
    exact hp

theorem playlist_sort_correct_witness :
    (playlistEntries exChnoChannels exParams).Pairwise
      (fun e₁ e₂ => ∃ a b : Int,
        e₁.channel.chno = some a ∧ e₂.channel.chno = some b ∧ a ≤ b) ∧
    (playlistEntries exChnoChannels exParams).map
        (fun e => e.channel.chno) = [some 1, some 2, some 3] ∧
    (playlistEntries exNameChannels exNameParams).Pairwise
      (fun e₁ e₂ => nameKey e₁.channel ≤ nameKey e₂.channel) ∧
    (playlistEntries exNameChannels exNameParams).map
        (fun e => e.channel.name) = [pyStr "alpha", pyStr "Zeta"] :=
  ⟨(playlist_sort_correct exChnoChannels exParams
        (fun _ => by decide)).1 rfl,
    by decide,
    (playlist_sort_correct exNameChannels exNameParams
        (fun h => absurd h (by decide))).2 (by decide),
    by decide⟩

theorem emitLoop_pos (p : PlaylistParams) :
    ∀ (l : List (PyStr × Channel)) (n : Int), 0 < n →
      (emitLoop p l (some n)).map (fun e => e.chnoAttr) =
        (List.range (emitLoop p l (some n)).length).map
          (fun i : Nat => some (n + (i : Int))) := by
  intro l
  induction l with
  | nil => intro n hn; rfl
  | cons kc rest ih =>
      intro n hn
      obtain ⟨key, c⟩ := kc
      by_cases h : skipChannel p key c = true
      · simp only [emitLoop, h, if_true]
        exact ih n hn
      · have hstep : chnoStep (some n) c = (some n, some (n + 1)) := by
          simp [chnoStep, hn]
        have hih := ih (n + 1) (by omega)
        simp only [emitLoop, h, if_false, Bool.false_eq_true, hstep,
          List.map_cons, List.length_cons, List.range_succ_eq_map,
          List.map_map, hih]
        refine congrArg₂ List.cons ?_ ?_
        · norm_num
        · refine List.map_congr_left ?_
          intro i _
          simp only [Function.comp_apply]
          congr 1
          push_cast
          ring

theorem emitLoop_nonpos (p : PlaylistParams) :
    ∀ (l : List (PyStr × Channel)) (n : Int), n ≤ 0 →
      ∀ e ∈ emitLoop p l (some n), e.chnoAttr = none := by
  intro l
  induction l with
  | nil => intro n hn e he; simp [emitLoop] at he
  | cons kc rest ih =>
      intro n hn e he
      obtain ⟨key, c⟩ := kc
      by_cases h : skipChannel p key c = true
      · simp only [emitLoop, h, if_true] at he
        exact ih n hn e he
      · have hng : ¬ n > 0 := by omega
        have hstep : chnoStep (some n) c = (none, some n) := by
          simp [chnoStep, hng]
        simp only [emitLoop, h, if_false, Bool.false_eq_true, hstep,
          List.mem_cons] at he
        rcases he with rfl | he
        · rfl
        · exact ih n hn e he

theorem emitLoop_native (p : PlaylistParams) :
    ∀ (l : List (PyStr × Channel)),
      ∀ e ∈ emitLoop p l none, e.chnoAttr = e.channel.chno := by
  intro l
  induction l with
  | nil => intro e he; simp [emitLoop] at he
  | cons kc rest ih =>
      intro e he
      obtain ⟨key, c⟩ := kc
      by_cases h : skipChannel p key c = true
      · simp only [emitLoop, h, if_true] at he
        exact ih e he
      · have hstep : chnoStep none c = (c.chno, none) := by
          cases hc : c.chno <;> simp [chnoStep, hc]
        simp only [emitLoop, h, if_false, Bool.false_eq_true, hstep,
          List.mem_cons] at he
        rcases he with rfl | he
        · rfl
        · exact ih e he

/-- C9: channel-number attribution for every merged mapping and request.
With a requested start `n > 0`, the emitted attributes are exactly
`n, n+1, n+2, ...` in emission order (filtered-out channels consume no
number); with a requested start of exactly `0`, no entry carries a number
attribute; with no requested start, each entry carries exactly its channel's
native number (present iff the channel has one). -/
theorem playlist_chno_numbering (channels : List (PyStr × Channel))
    (p : PlaylistParams) :
    (∀ n : Int, p.start_chno = some n → 0 < n →
      (playlistEntries channels p).map (fun e => e.chnoAttr) =
        (List.range (playlistEntries channels p).length).map
          (fun i : Nat => some (n + (i : Int)))) ∧
    (p.start_chno = some 0 →
      ∀ e ∈ playlistEntries channels p, e.chnoAttr = none) ∧
    (p.start_chno = none →
      ∀ e ∈ playlistEntries channels p, e.chnoAttr = e.channel.chno) := by
  refine ⟨?_, ?_, ?_⟩
  · intro n hs hn
    have h := emitLoop_pos p (sortChannels channels p.sort) n hn
    simpa [playlistEntries, hs] using h
  · intro hs e he
    exact emitLoop_nonpos p (sortChannels channels p.sort) 0 le_rfl e
      (by simpa [playlistEntries, hs] using he)
  · intro hs e he
    exact emitLoop_native p (sortChannels channels p.sort) e
      (by simpa [playlistEntries, hs] using he)

theorem playlist_chno_numbering_witness :
    ((playlistEntries exSeqChannels exStart5Params).map
        (fun e => e.chnoAttr) =
      (List.range (playlistEntries exSeqChannels exStart5Params).length).map
        (fun i : Nat => some (5 + (i : Int)))) ∧
    (playlistEntries exSeqChannels exStart5Params).map
        (fun e => e.chnoAttr) = [some 5, some 6, some 7] ∧
    (∀ e ∈ playlistEntries exSeqChannels exStart0Params,
      e.chnoAttr = none) ∧
    (∀ e ∈ playlistEntries exSeqChannels exParams,
      e.chnoAttr = e.channel.chno) :=
  ⟨(playlist_chno_numbering exSeqChannels exStart5Params).1 5 rfl
      (by decide),
    by decide,
    (playlist_chno_numbering exSeqChannels exStart0Params).2.1 rfl,
    (playlist_chno_numbering exSeqChannels exParams).2.2 rfl⟩
